import Mathlib

/-!
Shallow embedding of `scripts/ai_minutes_generator.py`: an AI meeting-minutes
pipeline (two-tier extraction with fallback, HTML rendering with per-field
defaults, and find-then-create-or-update publishing to Confluence).

External collaborators (the OpenAI completion endpoint, the Confluence REST
API, `json.loads`, `json.dumps`, and the filesystem) are modelled as oracle
parameters: a completion call is an `Except` value (either the returned text
or the exception it raised), an HTTP round trip is a function from the sent
request to the response received.  Python dict `.get(key, default)` access on
the loosely-typed meeting record is modelled by `Option` fields with
`Option.getD`.  Python exceptions are modelled by `Except` / `PyExc`; a Lean
function that is total corresponds to Python code that cannot raise.
-/

namespace MeetingMinutes

/-- A Python exception, classified the way the source's `except` clauses
classify them: `json.JSONDecodeError`, the generic Confluence API error
raised on a non-200 status, or any other exception. -/
inductive PyExc where
  | jsonDecode
  | apiError (status : Nat)
  | other
deriving DecidableEq, Repr

/-- One entry of the record's `individual_updates` list; every key is
optional (Python dict `.get` with a default). -/
structure IndividualUpdate where
  name : Option String := none
  yesterday : Option String := none
  today : Option String := none
  blockers : Option String := none
deriving DecidableEq, Repr

/-- One entry of the record's `action_items` list. -/
structure ActionItem where
  action : Option String := none
  assignee : Option String := none
  due_date : Option String := none
  priority : Option String := none
deriving DecidableEq, Repr

/-- The loosely-typed meeting record produced by extraction.  A field is
`none` exactly when the corresponding key is absent from the Python dict. -/
structure MeetingData where
  attendees : Option (List String) := none
  summary : Option String := none
  individual_updates : Option (List IndividualUpdate) := none
  action_items : Option (List ActionItem) := none
  blockers : Option (List String) := none
  decisions : Option (List String) := none
  key_discussions : Option (List String) := none
deriving DecidableEq, Repr

/-- `ConfluenceConfig` dataclass (lines 24-31). -/
structure ConfluenceConfig where
  base_url : String
  username : String
  api_token : String
  space_key : String
  parent_page_id : Option String := none
deriving DecidableEq, Repr

/-- A JSON value, used for the request payloads the publisher sends. -/
inductive Json where
  | str (s : String)
  | int (n : Int)
  | arr (elems : List Json)
  | obj (fields : List (String × Json))

/-- Top-level key lookup on a JSON object (`payload["k"]`). -/
def Json.get? : Json → String → Option Json
  | .obj fields, k => fields.lookup k
  | _, _ => none

/-- Top-level keys of a JSON object. -/
def Json.keys : Json → List String
  | .obj fields => fields.map Prod.fst
  | _ => []

/-- The page data used from a Confluence lookup result:
`page["id"]` and `page["version"]["number"]` (lines 394-397). -/
structure RemotePage where
  id : String
  version : Int
deriving DecidableEq, Repr

/-- The lookup HTTP response: its status code and the parsed body's
`results` list (the store is modelled as returning well-formed JSON, as
spec section 6 assumes). -/
structure LookupResponse where
  status : Nat
  results : List RemotePage
deriving DecidableEq, Repr

/-- A create/update HTTP response: status code plus the returned page
data's `id` and `_links.webui` fields. -/
structure PageResponse where
  status : Nat
  id : String
  webui : String
deriving DecidableEq, Repr

/-- `ConfluencePublisher.find_page_by_title` (lines 109-124): on a 200
response return the first entry of `results` if any; otherwise `None`.
Total, so the modelled function never raises. -/
def find_page_by_title (resp : LookupResponse) : Option RemotePage :=
  if resp.status = 200 then
    match resp.results with
    | r :: _ => some r
    | [] => none
  else none

/-- `ConfluencePublisher.format_for_confluence` (lines 126-138): wraps the
HTML in the informational banner macro. -/
def format_for_confluence (html_content : String) : String :=
  "\n        <ac:structured-macro ac:name=\"info\" ac:schema-version=\"1\">\n            <ac:parameter ac:name=\"title\">AI-Generated Meeting Minutes</ac:parameter>\n            <ac:rich-text-body>\n                <p>This page was automatically generated from a Teams meeting transcript using AI.</p>\n            </ac:rich-text-body>\n        </ac:structured-macro>\n        "
    ++ html_content ++ "\n        "

/-- The payload built by `ConfluencePublisher.create_page` (lines 49-69):
type/title/space/body/metadata, plus `ancestors` when `parent_id or
self.config.parent_page_id` is truthy.  No version field is ever added. -/
def create_payload (cfg : ConfluenceConfig) (title content : String)
    (parent_id : Option String) : Json :=
  let base : List (String × Json) :=
    [("type", .str "page"),
     ("title", .str title),
     ("space", .obj [("key", .str cfg.space_key)]),
     ("body", .obj [("storage", .obj
        [("value", .str (format_for_confluence content)),
         ("representation", .str "storage")])]),
     ("metadata", .obj [("labels", .arr
        [.obj [("name", .str "meeting-minutes")],
         .obj [("name", .str "standup")],
         .obj [("name", .str "ai-generated")]])])]
  match parent_id, cfg.parent_page_id with
  | some pid, _ =>
      .obj (base ++ [("ancestors", .arr [.obj [("id", .str pid)]])])
  | none, some pid =>
      .obj (base ++ [("ancestors", .arr [.obj [("id", .str pid)]])])
  | none, none => .obj base

/-- The payload built by `ConfluencePublisher.update_page` (lines 87-97):
its version number is `version + 1` where `version` is the number passed
in by the caller. -/
def update_payload (title content : String) (version : Int) : Json :=
  .obj [("version", .obj [("number", .int (version + 1))]),
        ("title", .str title),
        ("type", .str "page"),
        ("body", .obj [("storage", .obj
           [("value", .str (format_for_confluence content)),
            ("representation", .str "storage")])])]

/-- The request `process_and_publish` sends (lines 390-400): update with
the found page's id and version if the lookup found a page, otherwise
create (with no explicit parent argument). -/
inductive PublishRequest where
  | createReq (payload : Json)
  | updateReq (page_id : String) (payload : Json)

/-- The find-then-create-or-update dispatch of `process_and_publish`
(lines 390-400), producing the request that is sent to the store. -/
def publish_request (cfg : ConfluenceConfig) (lookup : LookupResponse)
    (title content : String) : PublishRequest :=
  match find_page_by_title lookup with
  | some existing_page =>
      .updateReq existing_page.id
        (update_payload title content existing_page.version)
  | none => .createReq (create_payload cfg title content none)

/-- The oracles standing for the external collaborators: the three
completion calls, the two JSON parses of their responses, and the three
Confluence round trips. -/
structure Oracles where
  primary_call : Except PyExc String
  loads : String → Except Unit MeetingData
  simple_call : Except Unit String
  simple_loads : String → Except Unit MeetingData
  sugg_call : Except Unit String
  lookup : LookupResponse
  post : Json → PageResponse
  put : String → Json → PageResponse

/-- Status check shared by `create_page` (lines 71-79) and `update_page`
(lines 99-107): a 200 response yields the returned page data, any other
status raises `Exception(f"Confluence API error: ...")`. -/
def send_request (o : Oracles) : PublishRequest → Except PyExc PageResponse
  | .updateReq page_id payload =>
      let response := o.put page_id payload
      if response.status = 200 then .ok response
      else .error (.apiError response.status)
  | .createReq payload =>
      let response := o.post payload
      if response.status = 200 then .ok response
      else .error (.apiError response.status)

/-- The hardcoded safe-default record of `simple_ai_extraction`
(lines 223-228). -/
def safe_default_record : MeetingData :=
  { attendees := some ["Unable to extract attendees"],
    summary := some "Meeting transcript processed but extraction failed.",
    action_items := some ([] : List ActionItem),
    blockers := some ([] : List String) }

/-- `AIMinutesGenerator.simple_ai_extraction` (lines 200-228): one
completion call and one JSON parse inside a bare `try`/`except` whose
handler returns the safe default.  Total: the model can never raise. -/
def simple_ai_extraction (call : Except Unit String)
    (loads : String → Except Unit MeetingData) : MeetingData :=
  match (match call with
         | .ok text => loads text
         | .error e => .error e) with
  | .ok meeting_data => meeting_data
  | .error _ => safe_default_record

/-- `AIMinutesGenerator.process_transcript_with_ai` (lines 148-198): the
primary call plus `json.loads` inside a `try` whose
`except json.JSONDecodeError` falls back to `simple_ai_extraction` and
whose `except Exception` re-raises. -/
def process_transcript_with_ai (call : Except PyExc String)
    (loads : String → Except Unit MeetingData)
    (simple_call : Except Unit String)
    (simple_loads : String → Except Unit MeetingData) :
    Except PyExc MeetingData :=
  match call with
  | .ok ai_response =>
      match loads ai_response with
      | .ok meeting_data => .ok meeting_data
      | .error _ => .ok (simple_ai_extraction simple_call simple_loads)
  | .error e =>
      match e with
      | .jsonDecode => .ok (simple_ai_extraction simple_call simple_loads)
      | _ => .error e

/-- Concatenation of the per-element fragments appended by a `html += ...`
loop, in list order. -/
def concat_map {α : Type} (f : α → String) : List α → String
  | [] => ""
  | x :: rest => f x ++ concat_map f rest

/-- The `', '.join(meeting_data.get('attendees', ['No attendees
extracted']))` expression of the Attendees cell (line 247). -/
def attendees_cell (md : MeetingData) : String :=
  String.intercalate ", " (md.attendees.getD ["No attendees extracted"])

/-- The opening f-string of `format_minutes_as_html` (lines 233-255):
title header, metadata table, executive summary, and the Individual
Updates heading. -/
def header_html (md : MeetingData) (meeting_date : String) : String :=
  "\n        <h1>Stand-up Meeting Minutes - " ++ meeting_date
    ++ "</h1>\n        \n        <table>\n            <tr>\n                <th>Date</th>\n                <td>"
    ++ meeting_date
    ++ "</td>\n            </tr>\n            <tr>\n                <th>Type</th>\n                <td>Daily Stand-up</td>\n            </tr>\n            <tr>\n                <th>Attendees</th>\n                <td>"
    ++ attendees_cell md
    ++ "</td>\n            </tr>\n        </table>\n        \n        <h2>Executive Summary</h2>\n        <p>"
    ++ md.summary.getD "No summary available."
    ++ "</p>\n        \n        <h2>Individual Updates</h2>\n        "

/-- The fragment appended for one individual update (lines 258-266), with
the documented defaults for each absent key. -/
def format_update (u : IndividualUpdate) : String :=
  "\n            <h3>" ++ u.name.getD "Unknown"
    ++ "</h3>\n            <ul>\n                <li><strong>Yesterday:</strong> "
    ++ u.yesterday.getD "Not mentioned"
    ++ "</li>\n                <li><strong>Today:</strong> "
    ++ u.today.getD "Not mentioned"
    ++ "</li>\n                <li><strong>Blockers:</strong> "
    ++ u.blockers.getD "None"
    ++ "</li>\n            </ul>\n            "

/-- The blockers section (lines 268-274): emitted only when the list is
non-empty (Python truthiness of `blockers`). -/
def blockers_section (blockers : List String) : String :=
  if blockers = [] then ""
  else "<h2>Blockers/Impediments</h2><ul>"
    ++ concat_map (fun blocker => "<li>" ++ blocker ++ "</li>") blockers
    ++ "</ul>"

/-- One row of the Action Items table (lines 290-297), with the
documented defaults for each absent key. -/
def action_item_row (item : ActionItem) : String :=
  "\n                <tr>\n                    <td>" ++ item.action.getD ""
    ++ "</td>\n                    <td>" ++ item.assignee.getD "TBD"
    ++ "</td>\n                    <td>" ++ item.due_date.getD "TBD"
    ++ "</td>\n                    <td>" ++ item.priority.getD "Medium"
    ++ "</td>\n                </tr>\n                "

/-- The Action Items section (lines 276-298): emitted only when the list
is non-empty. -/
def action_items_section (action_items : List ActionItem) : String :=
  if action_items = [] then ""
  else "\n            <h2>Action Items</h2>\n            <table>\n                <tr>\n                    <th>Action</th>\n                    <th>Assignee</th>\n                    <th>Due Date</th>\n                    <th>Priority</th>\n                </tr>\n            "
    ++ concat_map action_item_row action_items ++ "</table>"

/-- The Decisions section (lines 300-306): emitted only when non-empty. -/
def decisions_section (decisions : List String) : String :=
  if decisions = [] then ""
  else "<h2>Decisions Made</h2><ul>"
    ++ concat_map (fun decision => "<li>" ++ decision ++ "</li>") decisions
    ++ "</ul>"

/-- The Key Discussions section (lines 308-314): emitted only when
non-empty. -/
def key_discussions_section (discussions : List String) : String :=
  if discussions = [] then ""
  else "<h2>Key Discussion Points</h2><ul>"
    ++ concat_map (fun discussion => "<li>" ++ discussion ++ "</li>") discussions
    ++ "</ul>"

/-- The metrics footer and generation stamp (lines 316-329).  The
wall-clock value read at line 328 is the explicit `now` parameter. -/
def metrics_footer (md : MeetingData) (now : String) : String :=
  "\n        <hr/>\n        <h2>Meeting Metrics</h2>\n        <ul>\n            <li><strong>Total Attendees:</strong> "
    ++ toString (md.attendees.getD []).length
    ++ "</li>\n            <li><strong>Action Items:</strong> "
    ++ toString (md.action_items.getD []).length
    ++ "</li>\n            <li><strong>Blockers:</strong> "
    ++ toString (md.blockers.getD []).length
    ++ "</li>\n            <li><strong>Decisions:</strong> "
    ++ toString (md.decisions.getD []).length
    ++ "</li>\n        </ul>\n        \n        <hr/>\n        <p><em>Minutes generated automatically on "
    ++ now ++ " using AI</em></p>\n        "

/-- `AIMinutesGenerator.format_minutes_as_html` (lines 230-331): the
`html += ...` accumulation, as concatenation in source order.  Total, so
rendering never raises. -/
def format_minutes_as_html (md : MeetingData) (meeting_date now : String) :
    String :=
  header_html md meeting_date
    ++ concat_map format_update (md.individual_updates.getD [])
    ++ blockers_section (md.blockers.getD [])
    ++ action_items_section (md.action_items.getD [])
    ++ decisions_section (md.decisions.getD [])
    ++ key_discussions_section (md.key_discussions.getD [])
    ++ metrics_footer md now

/-- `AIMinutesGenerator.generate_improvement_suggestions` (lines 333-358):
returns the completion text, or the empty string if anything raised. -/
def generate_improvement_suggestions (call : Except Unit String) : String :=
  match call with
  | .ok suggestions => suggestions
  | .error _ => ""

/-- The suggestion appendix block concatenated at lines 376-383. -/
def suggestion_appendix (suggestions : String) : String :=
  "\n            <h2>AI Suggestions for Improvement</h2>\n            <ac:structured-macro ac:name=\"note\" ac:schema-version=\"1\">\n                <ac:rich-text-body>\n                    <p>"
    ++ suggestions
    ++ "</p>\n                </ac:rich-text-body>\n            </ac:structured-macro>\n            "

/-- Lines 371-383 of `process_and_publish`: render, then append the
suggestion appendix only when the suggestion text is truthy. -/
def pipeline_html (md : MeetingData) (meeting_date now : String)
    (sugg_call : Except Unit String) : String :=
  let html_content := format_minutes_as_html md meeting_date now
  let suggestions := generate_improvement_suggestions sugg_call
  if suggestions ≠ "" then html_content ++ suggestion_appendix suggestions
  else html_content

/-- `base_url.rstrip('/')` of `ConfluencePublisher.__init__` (line 40). -/
def rstrip_slash (s : String) : String :=
  s.dropRightWhile (fun c => c = '/')

/-- The dict returned by `process_and_publish` (lines 402-412). -/
structure PipelineResult where
  meeting_data : MeetingData
  html_content : String
  confluence_url : Option String := none
  page_id : Option String := none

/-- `AIMinutesGenerator.process_and_publish` (lines 360-412): extraction,
rendering, optional suggestion appendix, then the find-then-create-or-
update publish when Confluence is configured.  Exceptions propagate as
`Except.error`. -/
def process_and_publish (confluence : Option ConfluenceConfig)
    (o : Oracles) (meeting_date now : String) :
    Except PyExc PipelineResult :=
  match process_transcript_with_ai o.primary_call o.loads
      o.simple_call o.simple_loads with
  | .error e => .error e
  | .ok meeting_data =>
    let html_content := pipeline_html meeting_data meeting_date now o.sugg_call
    match confluence with
    | none => .ok { meeting_data := meeting_data, html_content := html_content }
    | some cfg =>
      let title := "Stand-up Minutes - " ++ meeting_date
      match send_request o (publish_request cfg o.lookup title html_content) with
      | .error e => .error e
      | .ok page_data =>
          .ok { meeting_data := meeting_data,
                html_content := html_content,
                confluence_url :=
                  some (rstrip_slash cfg.base_url ++ page_data.webui),
                page_id := some page_data.id }

/-- One local file write of `process_file` (path and content). -/
structure FileWrite where
  path : String
  content : String
deriving DecidableEq, Repr

/-- `AIMinutesGenerator.process_file` (lines 414-450): `process_and_publish`
first; only after it returns are the local HTML and JSON files written
(and only when an output directory is configured).  `dumps` models
`json.dumps(..., indent=2)`; `stem` and `date_stamp` the filename pieces. -/
def process_file (confluence : Option ConfluenceConfig) (o : Oracles)
    (dumps : MeetingData → String) (stem date_stamp : String)
    (meeting_date now : String) (output_dir : Option String) :
    Except PyExc (PipelineResult × List FileWrite) :=
  match process_and_publish confluence o meeting_date now with
  | .error e => .error e
  | .ok result =>
    match output_dir with
    | none => .ok (result, [])
    | some dir =>
      let output_file :=
        dir ++ "/minutes_" ++ stem ++ "_" ++ date_stamp ++ ".html"
      let json_file :=
        dir ++ "/minutes_" ++ stem ++ "_" ++ date_stamp ++ ".json"
      .ok (result,
        [{ path := output_file, content := result.html_content },
         { path := json_file, content := dumps result.meeting_data }])

/-- `pat` occurs as a contiguous substring of `s`. -/
def strContains (pat s : String) : Prop :=
  pat.data <:+: s.data

instance (pat s : String) : Decidable (strContains pat s) :=
  inferInstanceAs (Decidable (pat.data <:+: s.data))

/-- Sample individual update with every key absent. -/
def uW : IndividualUpdate := {}

/-- Sample action item with every key absent. -/
def aW : ActionItem := {}

/-- Sample record: one all-defaults update and one all-defaults action
item, everything else absent. -/
def mdW : MeetingData :=
  { individual_updates := some [uW], action_items := some [aW] }

/-- Sample record whose `attendees` key is present but empty. -/
def mdEmptyAtt : MeetingData := { attendees := some [] }

/-- Sample record with every conditional section non-empty. -/
def mdFull : MeetingData :=
  { blockers := some ["b1"], action_items := some [aW],
    decisions := some ["d1"], key_discussions := some ["k1"] }

/-- Sample Confluence configuration. -/
def cfgW : ConfluenceConfig :=
  { base_url := "https://example.com/wiki/", username := "user",
    api_token := "tok", space_key := "SPACE" }

/-- Sample existing remote page at version 3. -/
def pageW : RemotePage := { id := "123", version := 3 }

/-- Lookup response: 200 with one matching page. -/
def lookupFound : LookupResponse := { status := 200, results := [pageW] }

/-- Lookup response: 200 with no matching page. -/
def lookupMissing : LookupResponse := { status := 200, results := [] }

/-- Lookup response: server error with a (ignored) result. -/
def lookupFailed : LookupResponse := { status := 500, results := [pageW] }

/-- A JSON parse that always fails. -/
def loadsFail : String → Except Unit MeetingData := fun _ => Except.error ()

/-- A JSON parse that always yields `mdW`. -/
def loadsOk : String → Except Unit MeetingData := fun _ => Except.ok mdW

/-- A trivial stand-in for `json.dumps`. -/
def dumpsW : MeetingData → String := fun _ => ""

/-- Oracle set: primary extraction succeeds, lookup finds `pageW`, the
update round trip comes back with status 409. -/
def oW : Oracles :=
  { primary_call := Except.ok "resp", loads := loadsOk,
    simple_call := Except.error (), simple_loads := loadsFail,
    sugg_call := Except.error (), lookup := lookupFound,
    post := fun _ => { status := 500, id := "", webui := "" },
    put := fun _ _ => { status := 409, id := "", webui := "" } }

theorem strContains_self (pat : String) : strContains pat pat := by
  unfold strContains
  exact List.infix_refl _

theorem strContains_append_left {pat a : String} (b : String)
    (h : strContains pat a) : strContains pat (a ++ b) := by
  unfold strContains at h ⊢
  rw [String.data_append]
  exact h.trans (List.prefix_append a.data b.data).isInfix

theorem strContains_append_right {pat b : String} (a : String)
    (h : strContains pat b) : strContains pat (a ++ b) := by
  unfold strContains at h ⊢
  rw [String.data_append]
  exact h.trans (List.suffix_append a.data b.data).isInfix

theorem strContains_concat_map {α : Type} (f : α → String) {x : α}
    {l : List α} (h : x ∈ l) : strContains (f x) (concat_map f l) := by
  induction l with
  | nil => cases h
  | cons y rest ih =>
    rcases List.mem_cons.mp h with rfl | h'
    · exact strContains_append_left _ (strContains_self _)
    · exact strContains_append_right _ (ih h')

theorem strContains_header {pat : String} (md : MeetingData) (d t : String)
    (h : strContains pat (header_html md d)) :
    strContains pat (format_minutes_as_html md d t) := by
  unfold format_minutes_as_html
  exact strContains_append_left _ (strContains_append_left _
    (strContains_append_left _ (strContains_append_left _
      (strContains_append_left _ (strContains_append_left _ h)))))

theorem strContains_updates {pat : String} (md : MeetingData) (d t : String)
    (h : strContains pat (concat_map format_update (md.individual_updates.getD []))) :
    strContains pat (format_minutes_as_html md d t) := by
  unfold format_minutes_as_html
  exact strContains_append_left _ (strContains_append_left _
    (strContains_append_left _ (strContains_append_left _
      (strContains_append_left _ (strContains_append_right _ h)))))

theorem strContains_blockers {pat : String} (md : MeetingData) (d t : String)
    (h : strContains pat (blockers_section (md.blockers.getD []))) :
    strContains pat (format_minutes_as_html md d t) := by
  unfold format_minutes_as_html
  exact strContains_append_left _ (strContains_append_left _
    (strContains_append_left _ (strContains_append_left _
      (strContains_append_right _ h))))

theorem strContains_actions {pat : String} (md : MeetingData) (d t : String)
    (h : strContains pat (action_items_section (md.action_items.getD []))) :
    strContains pat (format_minutes_as_html md d t) := by
  unfold format_minutes_as_html
  exact strContains_append_left _ (strContains_append_left _
    (strContains_append_left _ (strContains_append_right _ h)))

theorem strContains_decisions {pat : String} (md : MeetingData) (d t : String)
    (h : strContains pat (decisions_section (md.decisions.getD []))) :
    strContains pat (format_minutes_as_html md d t) := by
  unfold format_minutes_as_html
  exact strContains_append_left _ (strContains_append_left _
    (strContains_append_right _ h))

theorem strContains_keydisc {pat : String} (md : MeetingData) (d t : String)
    (h : strContains pat (key_discussions_section (md.key_discussions.getD []))) :
    strContains pat (format_minutes_as_html md d t) := by
  unfold format_minutes_as_html
  exact strContains_append_left _ (strContains_append_right _ h)

/-- C7: rendering is deterministic — for every meeting record and date,
two renderings with the same fixed generation timestamp produce
byte-identical output. -/
theorem c7_render_deterministic (md : MeetingData) (d t1 t2 : String)
    (h : t1 = t2) :
    format_minutes_as_html md d t1 = format_minutes_as_html md d t2 := by
  rw [h]

theorem c7_render_deterministic_witness :
    format_minutes_as_html mdW "2024-01-15" "2024-01-15 10:00:00"
      = format_minutes_as_html mdW "2024-01-15" "2024-01-15 10:00:00" :=
  c7_render_deterministic mdW "2024-01-15" _ _ rfl

/-- C9: a publish failure makes `process_and_publish` raise, and
`process_file` writes neither local file in that case — local saving is
sequenced strictly after `process_and_publish` returns, for any
configured output directory. -/
theorem c9_no_local_output_on_publish_failure (cfg : ConfluenceConfig)
    (o : Oracles) (dumps : MeetingData → String)
    (stem date_stamp meeting_date now : String) (output_dir : Option String)
    (e : PyExc)
    (h : process_and_publish (some cfg) o meeting_date now = .error e) :
    process_file (some cfg) o dumps stem date_stamp meeting_date now
      output_dir = .error e := by
  simp [process_file, h]

theorem c9_no_local_output_on_publish_failure_witness :
    process_file (some cfgW) oW dumpsW "standup" "20240115" "2024-01-15"
      "2024-01-15 10:00:00" (some "/out") = .error (.apiError 409) :=
  c9_no_local_output_on_publish_failure cfgW oW dumpsW "standup" "20240115"
    "2024-01-15" "2024-01-15 10:00:00" (some "/out") (.apiError 409) rfl

/-- C10: `find_page_by_title` is total (never raises) and returns `none`
both on a non-200 lookup status and on an empty result list; a `none`
lookup makes the publisher dispatch a create request. -/
theorem c10_lookup_never_errors (resp : LookupResponse)
    (cfg : ConfluenceConfig) (title content : String) :
    (resp.status ≠ 200 → find_page_by_title resp = none) ∧
    (resp.results = [] → find_page_by_title resp = none) ∧
    (find_page_by_title resp = none →
      publish_request cfg resp title content
        = .createReq (create_payload cfg title content none)) := by
  refine ⟨?_, ?_, ?_⟩
  · intro h
    simp [find_page_by_title, h]
  · intro h
    simp [find_page_by_title, h]
  · intro h
    simp [publish_request, h]

theorem c10_lookup_never_errors_witness :
    find_page_by_title lookupFailed = none ∧
    find_page_by_title lookupMissing = none ∧
    publish_request cfgW lookupFailed "T" "C"
      = .createReq (create_payload cfgW "T" "C" none) :=
  ⟨(c10_lookup_never_errors lookupFailed cfgW "T" "C").1 (by decide),
   (c10_lookup_never_errors lookupMissing cfgW "T" "C").2.1 rfl,
   (c10_lookup_never_errors lookupFailed cfgW "T" "C").2.2
     ((c10_lookup_never_errors lookupFailed cfgW "T" "C").1 (by decide))⟩

/-- C5: the simplified fallback tier is invoked exactly when the primary
tier fails with a JSON-decode error; a successful parse is returned as
is, and every other exception from the primary call is re-raised. -/
theorem c5_fallback_dispatch (call : Except PyExc String)
    (loads : String → Except Unit MeetingData)
    (simple_call : Except Unit String)
    (simple_loads : String → Except Unit MeetingData)
    (text : String) (d : MeetingData) (e : PyExc) :
    (call = .ok text → loads text = .error () →
      process_transcript_with_ai call loads simple_call simple_loads
        = .ok (simple_ai_extraction simple_call simple_loads)) ∧
    (call = .ok text → loads text = .ok d →
      process_transcript_with_ai call loads simple_call simple_loads
        = .ok d) ∧
    (call = .error e → e ≠ .jsonDecode →
      process_transcript_with_ai call loads simple_call simple_loads
        = .error e) ∧
    (call = .error .jsonDecode →
      process_transcript_with_ai call loads simple_call simple_loads
        = .ok (simple_ai_extraction simple_call simple_loads)) := by
  refine ⟨?_, ?_, ?_, ?_⟩
  · intro h1 h2
    simp [process_transcript_with_ai, h1, h2]
  · intro h1 h2
    simp [process_transcript_with_ai, h1, h2]
  · intro h1 h2
    cases e with
    | jsonDecode => exact absurd rfl h2
    | apiError s => simp [process_transcript_with_ai, h1]
    | other => simp [process_transcript_with_ai, h1]
  · intro h1
    simp [process_transcript_with_ai, h1]

theorem c5_fallback_dispatch_witness :
    process_transcript_with_ai (Except.ok "x") loadsFail (Except.error ())
        loadsFail
      = .ok (simple_ai_extraction (Except.error ()) loadsFail) ∧
    process_transcript_with_ai (Except.ok "x") loadsOk (Except.error ())
        loadsFail = .ok mdW ∧
    process_transcript_with_ai (Except.error PyExc.other) loadsOk
        (Except.error ()) loadsFail = .error PyExc.other ∧
    process_transcript_with_ai (Except.error PyExc.jsonDecode) loadsOk
        (Except.error ()) loadsFail
      = .ok (simple_ai_extraction (Except.error ()) loadsFail) :=
  ⟨(c5_fallback_dispatch (Except.ok "x") loadsFail (Except.error ())
      loadsFail "x" mdW PyExc.other).1 rfl rfl,
   (c5_fallback_dispatch (Except.ok "x") loadsOk (Except.error ())
      loadsFail "x" mdW PyExc.other).2.1 rfl rfl,
   (c5_fallback_dispatch (Except.error PyExc.other) loadsOk (Except.error ())
      loadsFail "x" mdW PyExc.other).2.2.1 rfl (by decide),
   (c5_fallback_dispatch (Except.error PyExc.jsonDecode) loadsOk
      (Except.error ()) loadsFail "x" mdW PyExc.other).2.2.2 rfl⟩

/-- C4: `simple_ai_extraction` is total and returns the hardcoded
safe-default record whenever its completion call or its JSON parse
fails; hence when the primary parse fails and the simplified tier also
fails, extraction returns exactly the safe-default record. -/
theorem c4_safe_default (call : Except PyExc String)
    (loads : String → Except Unit MeetingData)
    (simple_call : Except Unit String)
    (simple_loads : String → Except Unit MeetingData)
    (text s : String) :
    (simple_call = .error () →
      simple_ai_extraction simple_call simple_loads = safe_default_record) ∧
    (simple_call = .ok s → simple_loads s = .error () →
      simple_ai_extraction simple_call simple_loads = safe_default_record) ∧
    (call = .ok text → loads text = .error () → simple_call = .error () →
      process_transcript_with_ai call loads simple_call simple_loads
        = .ok safe_default_record) ∧
    (call = .ok text → loads text = .error () → simple_call = .ok s →
      simple_loads s = .error () →
      process_transcript_with_ai call loads simple_call simple_loads
        = .ok safe_default_record) ∧
    (call = .error .jsonDecode → simple_call = .error () →
      process_transcript_with_ai call loads simple_call simple_loads
        = .ok safe_default_record) := by
  refine ⟨?_, ?_, ?_, ?_, ?_⟩
  · intro h1
    simp [simple_ai_extraction, h1]
  · intro h1 h2
    simp [simple_ai_extraction, h1, h2]
  · intro h1 h2 h3
    simp [process_transcript_with_ai, simple_ai_extraction, h1, h2, h3]
  · intro h1 h2 h3 h4
    simp [process_transcript_with_ai, simple_ai_extraction, h1, h2, h3, h4]
  · intro h1 h2
    simp [process_transcript_with_ai, simple_ai_extraction, h1, h2]

theorem c4_safe_default_witness :
    simple_ai_extraction (Except.error ()) loadsFail = safe_default_record ∧
    simple_ai_extraction (Except.ok "y") loadsFail = safe_default_record ∧
    process_transcript_with_ai (Except.ok "x") loadsFail (Except.error ())
      loadsFail = .ok safe_default_record ∧
    process_transcript_with_ai (Except.ok "x") loadsFail (Except.ok "y")
      loadsFail = .ok safe_default_record :=
  ⟨(c4_safe_default (Except.ok "x") loadsFail (Except.error ()) loadsFail
      "x" "y").1 rfl,
   (c4_safe_default (Except.ok "x") loadsFail (Except.ok "y") loadsFail
      "x" "y").2.1 rfl rfl,
   (c4_safe_default (Except.ok "x") loadsFail (Except.error ()) loadsFail
      "x" "y").2.2.1 rfl rfl rfl,
   (c4_safe_default (Except.ok "x") loadsFail (Except.ok "y") loadsFail
      "x" "y").2.2.2.1 rfl rfl rfl rfl⟩

theorem send_request_ignores_sugg (pc : Except PyExc String)
    (ld : String → Except Unit MeetingData) (sc : Except Unit String)
    (sl : String → Except Unit MeetingData) (s1 s2 : Except Unit String)
    (lk : LookupResponse) (po : Json → PageResponse)
    (pu : String → Json → PageResponse) (r : PublishRequest) :
    send_request ⟨pc, ld, sc, sl, s1, lk, po, pu⟩ r
      = send_request ⟨pc, ld, sc, sl, s2, lk, po, pu⟩ r := by
  cases r <;> rfl

/-- C6: a failed suggestion call yields the empty string, no suggestion
appendix is concatenated (the published document is exactly the rendered
minutes), and the rest of the pipeline behaves exactly as if the
suggestion step had succeeded with empty output. -/
theorem c6_suggestions_swallowed (cfg : Option ConfluenceConfig)
    (o : Oracles) (md : MeetingData) (d t : String) :
    generate_improvement_suggestions (.error ()) = "" ∧
    pipeline_html md d t (.error ()) = format_minutes_as_html md d t ∧
    (o.sugg_call = .error () →
      process_and_publish cfg o d t
        = process_and_publish cfg { o with sugg_call := .ok "" } d t) := by
  refine ⟨rfl, by simp [pipeline_html, generate_improvement_suggestions], ?_⟩
  rcases o with ⟨pc, ld, sc, sl, sg, lk, po, pu⟩
  intro h
  simp only at h
  subst h
  simp [process_and_publish, pipeline_html, generate_improvement_suggestions,
    send_request_ignores_sugg pc ld sc sl (Except.error ()) (Except.ok "")
      lk po pu]

theorem c6_suggestions_swallowed_witness :
    generate_improvement_suggestions (.error ()) = "" ∧
    pipeline_html mdW "2024-01-15" "TS" (.error ())
      = format_minutes_as_html mdW "2024-01-15" "TS" ∧
    process_and_publish (some cfgW) oW "2024-01-15" "TS"
      = process_and_publish (some cfgW) { oW with sugg_call := .ok "" }
          "2024-01-15" "TS" :=
  ⟨(c6_suggestions_swallowed (some cfgW) oW mdW "2024-01-15" "TS").1,
   (c6_suggestions_swallowed (some cfgW) oW mdW "2024-01-15" "TS").2.1,
   (c6_suggestions_swallowed (some cfgW) oW mdW "2024-01-15" "TS").2.2 rfl⟩

/-- C1: when the lookup finds an existing page at version N the publisher
dispatches an update whose payload carries version number N + 1; when the
lookup finds nothing it dispatches a create whose payload has no version
field at all. -/
theorem c1_publish_version (cfg : ConfluenceConfig) (lookup : LookupResponse)
    (title content : String) (page : RemotePage) :
    (find_page_by_title lookup = some page →
      publish_request cfg lookup title content
        = .updateReq page.id (update_payload title content page.version) ∧
      (update_payload title content page.version).get? "version"
        = some (.obj [("number", .int (page.version + 1))])) ∧
    (find_page_by_title lookup = none →
      publish_request cfg lookup title content
        = .createReq (create_payload cfg title content none) ∧
      ¬ "version" ∈ (create_payload cfg title content none).keys ∧
      (create_payload cfg title content none).get? "version" = none) := by
  constructor
  · intro h
    exact ⟨by simp [publish_request, h], rfl⟩
  · intro h
    refine ⟨by simp [publish_request, h], ?_, ?_⟩
    · rcases hp : cfg.parent_page_id with _ | pid <;>
        simp [create_payload, Json.keys, hp]
    · rcases hp : cfg.parent_page_id with _ | pid <;>
        simp [create_payload, Json.get?, hp, List.lookup]

theorem c1_publish_version_witness :
    (publish_request cfgW lookupFound "T" "C"
        = .updateReq "123" (update_payload "T" "C" 3) ∧
      (update_payload "T" "C" 3).get? "version"
        = some (.obj [("number", .int ((3 : Int) + 1))])) ∧
    (publish_request cfgW lookupMissing "T" "C"
        = .createReq (create_payload cfgW "T" "C" none) ∧
      ¬ "version" ∈ (create_payload cfgW "T" "C" none).keys ∧
      (create_payload cfgW "T" "C" none).get? "version" = none) :=
  ⟨(c1_publish_version cfgW lookupFound "T" "C" pageW).1 rfl,
   (c1_publish_version cfgW lookupMissing "T" "C" pageW).2 rfl⟩

/-- C2: the renderer is total (never raises) and substitutes each
documented literal default for the corresponding absent field: a record
missing a field renders identically to the same record with the field set
to its default — "No summary available." for the summary, "Unknown" /
"Not mentioned" / "Not mentioned" / "None" for an update's name /
yesterday / today / blockers, and "TBD" / "TBD" / "Medium" for an action
item's assignee / due_date / priority; each update's and each action
item's rendered fragment occurs in the document. -/
theorem c2_render_defaults (md : MeetingData) (d t : String)
    (u : IndividualUpdate) (a : ActionItem) :
    (md.summary = none →
      format_minutes_as_html md d t
        = format_minutes_as_html
            { md with summary := some "No summary available." } d t) ∧
    (u ∈ md.individual_updates.getD [] →
      strContains (format_update u) (format_minutes_as_html md d t)) ∧
    (u.name = none →
      format_update u = format_update { u with name := some "Unknown" }) ∧
    (u.yesterday = none →
      format_update u
        = format_update { u with yesterday := some "Not mentioned" }) ∧
    (u.today = none →
      format_update u
        = format_update { u with today := some "Not mentioned" }) ∧
    (u.blockers = none →
      format_update u = format_update { u with blockers := some "None" }) ∧
    (a ∈ md.action_items.getD [] →
      strContains (action_item_row a) (format_minutes_as_html md d t)) ∧
    (a.assignee = none →
      action_item_row a
        = action_item_row { a with assignee := some "TBD" }) ∧
    (a.due_date = none →
      action_item_row a
        = action_item_row { a with due_date := some "TBD" }) ∧
    (a.priority = none →
      action_item_row a
        = action_item_row { a with priority := some "Medium" }) := by
  refine ⟨?_, ?_, ?_, ?_, ?_, ?_, ?_, ?_, ?_, ?_⟩
  · intro h
    simp [format_minutes_as_html, header_html, metrics_footer,
      attendees_cell, h]
  · intro h
    exact strContains_updates md d t (strContains_concat_map format_update h)
  · intro h
    simp [format_update, h]
  · intro h
    simp [format_update, h]
  · intro h
    simp [format_update, h]
  · intro h
    simp [format_update, h]
  · intro h
    apply strContains_actions md d t
    have hne : md.action_items.getD [] ≠ [] := List.ne_nil_of_mem h
    unfold action_items_section
    rw [if_neg hne]
    exact strContains_append_left _ (strContains_append_right _
      (strContains_concat_map action_item_row h))
  · intro h
    simp [action_item_row, h]
  · intro h
    simp [action_item_row, h]
  · intro h
    simp [action_item_row, h]

theorem c2_render_defaults_witness :
    format_minutes_as_html mdW "2024-01-15" "TS"
      = format_minutes_as_html
          { mdW with summary := some "No summary available." }
          "2024-01-15" "TS" ∧
    strContains (format_update uW)
      (format_minutes_as_html mdW "2024-01-15" "TS") ∧
    format_update uW = format_update { uW with name := some "Unknown" } ∧
    format_update uW
      = format_update { uW with yesterday := some "Not mentioned" } ∧
    format_update uW
      = format_update { uW with today := some "Not mentioned" } ∧
    format_update uW = format_update { uW with blockers := some "None" } ∧
    strContains (action_item_row aW)
      (format_minutes_as_html mdW "2024-01-15" "TS") ∧
    action_item_row aW = action_item_row { aW with assignee := some "TBD" } ∧
    action_item_row aW = action_item_row { aW with due_date := some "TBD" } ∧
    action_item_row aW
      = action_item_row { aW with priority := some "Medium" } := by
  have h := c2_render_defaults mdW "2024-01-15" "TS" uW aW
  exact ⟨h.1 rfl, h.2.1 (by decide), h.2.2.1 rfl, h.2.2.2.1 rfl,
    h.2.2.2.2.1 rfl, h.2.2.2.2.2.1 rfl, h.2.2.2.2.2.2.1 (by decide),
    h.2.2.2.2.2.2.2.1 rfl, h.2.2.2.2.2.2.2.2.1 rfl,
    h.2.2.2.2.2.2.2.2.2 rfl⟩

/-- C3: the Blockers, Action Items, Decisions and Key Discussions sections
contribute nothing when their sequence is empty and put their heading into
the document when it is non-empty, while the Individual Updates heading is
always present — also when the updates list is empty or absent, in which
case the per-update fragments contribute nothing. -/
theorem c3_conditional_sections (md : MeetingData) (d t : String) :
    strContains "<h2>Individual Updates</h2>"
      (format_minutes_as_html md d t) ∧
    (md.individual_updates.getD [] = [] →
      concat_map format_update (md.individual_updates.getD []) = "") ∧
    (md.blockers.getD [] = [] →
      blockers_section (md.blockers.getD []) = "") ∧
    (md.blockers.getD [] ≠ [] →
      strContains "<h2>Blockers/Impediments</h2>"
        (format_minutes_as_html md d t)) ∧
    (md.action_items.getD [] = [] →
      action_items_section (md.action_items.getD []) = "") ∧
    (md.action_items.getD [] ≠ [] →
      strContains "<h2>Action Items</h2>" (format_minutes_as_html md d t)) ∧
    (md.decisions.getD [] = [] →
      decisions_section (md.decisions.getD []) = "") ∧
    (md.decisions.getD [] ≠ [] →
      strContains "<h2>Decisions Made</h2>"
        (format_minutes_as_html md d t)) ∧
    (md.key_discussions.getD [] = [] →
      key_discussions_section (md.key_discussions.getD []) = "") ∧
    (md.key_discussions.getD [] ≠ [] →
      strContains "<h2>Key Discussion Points</h2>"
        (format_minutes_as_html md d t)) := by
  refine ⟨?_, ?_, ?_, ?_, ?_, ?_, ?_, ?_, ?_, ?_⟩
  · apply strContains_header md d t
    unfold header_html
    exact strContains_append_right _ (by decide)
  · intro h
    rw [h]
    rfl
  · intro h
    simp [blockers_section, h]
  · intro h
    apply strContains_blockers md d t
    unfold blockers_section
    rw [if_neg h]
    exact strContains_append_left _ (strContains_append_left _ (by decide))
  · intro h
    simp [action_items_section, h]
  · intro h
    apply strContains_actions md d t
    unfold action_items_section
    rw [if_neg h]
    exact strContains_append_left _ (strContains_append_left _ (by decide))
  · intro h
    simp [decisions_section, h]
  · intro h
    apply strContains_decisions md d t
    unfold decisions_section
    rw [if_neg h]
    exact strContains_append_left _ (strContains_append_left _ (by decide))
  · intro h
    simp [key_discussions_section, h]
  · intro h
    apply strContains_keydisc md d t
    unfold key_discussions_section
    rw [if_neg h]
    exact strContains_append_left _ (strContains_append_left _ (by decide))

theorem c3_conditional_sections_witness :
    strContains "<h2>Individual Updates</h2>"
      (format_minutes_as_html mdEmptyAtt "2024-01-15" "TS") ∧
    concat_map format_update (mdEmptyAtt.individual_updates.getD []) = "" ∧
    blockers_section (mdEmptyAtt.blockers.getD []) = "" ∧
    action_items_section (mdEmptyAtt.action_items.getD []) = "" ∧
    decisions_section (mdEmptyAtt.decisions.getD []) = "" ∧
    key_discussions_section (mdEmptyAtt.key_discussions.getD []) = "" ∧
    strContains "<h2>Blockers/Impediments</h2>"
      (format_minutes_as_html mdFull "2024-01-15" "TS") ∧
    strContains "<h2>Action Items</h2>"
      (format_minutes_as_html mdFull "2024-01-15" "TS") ∧
    strContains "<h2>Decisions Made</h2>"
      (format_minutes_as_html mdFull "2024-01-15" "TS") ∧
    strContains "<h2>Key Discussion Points</h2>"
      (format_minutes_as_html mdFull "2024-01-15" "TS") := by
  have he := c3_conditional_sections mdEmptyAtt "2024-01-15" "TS"
  have hf := c3_conditional_sections mdFull "2024-01-15" "TS"
  exact ⟨he.1, he.2.1 rfl, he.2.2.1 rfl, he.2.2.2.2.1 rfl,
    he.2.2.2.2.2.2.1 rfl, he.2.2.2.2.2.2.2.2.1 rfl,
    hf.2.2.2.1 (by decide), hf.2.2.2.2.2.1 (by decide),
    hf.2.2.2.2.2.2.2.1 (by decide), hf.2.2.2.2.2.2.2.2.2 (by decide)⟩

/-- C8 as stated is false: the `'No attendees extracted'` default is
substituted only when the `attendees` key is absent.  A record whose
`attendees` key is present but empty joins the empty list, so the
Attendees cell is the empty string and the rendered document does not
contain the literal. -/
theorem c8_attendees_counterexample :
    mdEmptyAtt.attendees = some [] ∧
    attendees_cell mdEmptyAtt = "" ∧
    ¬ strContains "No attendees extracted" (attendees_cell mdEmptyAtt) := by
  exact ⟨rfl, rfl, by decide⟩

/-- C8 amended: for every meeting record whose `attendees` key is absent,
the Attendees cell is exactly the literal `'No attendees extracted'` and
the rendered document contains it.  (A present-but-empty `attendees` list
instead renders an empty cell.) -/
theorem c8_attendees_default (md : MeetingData) (d t : String)
    (h : md.attendees = none) :
    attendees_cell md = "No attendees extracted" ∧
    strContains "No attendees extracted"
      (format_minutes_as_html md d t) := by
  have hc : attendees_cell md = "No attendees extracted" := by
    unfold attendees_cell
    rw [h]
    rfl
  refine ⟨hc, ?_⟩
  apply strContains_header md d t
  unfold header_html
  apply strContains_append_left
  apply strContains_append_left
  apply strContains_append_left
  apply strContains_append_right
  rw [hc]
  exact strContains_self _

theorem c8_attendees_default_witness :
    attendees_cell mdW = "No attendees extracted" ∧
    strContains "No attendees extracted"
      (format_minutes_as_html mdW "2024-01-15" "TS") :=
  c8_attendees_default mdW "2024-01-15" "TS" rfl

end MeetingMinutes
